import Mathlib

set_option maxRecDepth 100000

/-!
Verification of the guideline-registry specification against `src/src/lib.rs`
of the `api-guidelines` crate.

The crate consists of eleven public Rust enums (`Naming` … `Macro`), each a
category of the Rust API Guidelines; every variant is a unit variant whose
name is the guideline's symbolic code with `_` in place of `-` (Rust
identifiers cannot contain hyphens), and the guideline prose is attached as
doc comments.  Each enum is embedded below as a Lean inductive with the same
constructors in the same declaration order.  The crate contains no functions;
the registry operations (lookup by identifier, enumerate by category,
enumerate categories) are modelled from the spec, over the data taken from
the source.
-/

namespace ApiGuidelines

/-- Embeds `pub enum Naming` (lib.rs lines 30-118): naming conventions. -/
inductive Naming
| C_CASE
| C_CONV
| C_GETTER
| C_ITER
| C_ITER_TY
| C_FEATURE
| C_WORD_ORDER
deriving DecidableEq

/-- Embeds `pub enum Interoperability` (lib.rs lines 120-246). -/
inductive Interoperability
| C_COMMON_TRAITS
| C_CONV_TRAITS
| C_COLLECT
| C_SERDE
| C_SEND_SYNC
| C_GOOD_ERR
| C_NUM_FMT
| C_RW_VALUE
deriving DecidableEq

/-- Embeds `pub enum Predictability` (lib.rs lines 247-354). -/
inductive Predictability
| C_SMART_PTR
| C_CONV_SPECIFIC
| C_METHOD
| C_NO_OUT
| C_OVERLOAD
| C_DEREF
| C_CTOR
deriving DecidableEq

/-- Embeds `pub enum Flexibility` (lib.rs lines 355-467). -/
inductive Flexibility
| C_INTERMEDIATE
| C_CALLER_CONTROL
| C_GENERIC
| C_OBJECT
deriving DecidableEq

/-- Embeds `pub enum TypeSafety` (lib.rs lines 468-613). -/
inductive TypeSafety
| C_NEWTYPE
| C_CUSTOM_TYPE
| C_BITFLAG
| C_BUILDER
deriving DecidableEq

/-- Embeds `pub enum Dependability` (lib.rs lines 614-667). -/
inductive Dependability
| C_VALIDATE
| C_DTOR_FAIL
| C_DTOR_BLOCK
deriving DecidableEq

/-- Embeds `pub enum Debuggability` (lib.rs lines 668-683). -/
inductive Debuggability
| C_DEBUG
| C_DEBUG_NONEMPTY
deriving DecidableEq

/-- Embeds `pub enum FutureProofing` (lib.rs lines 684-805). -/
inductive FutureProofing
| C_SEALED
| C_STRUCT_PRIVATE
| C_NEWTYPE_HIDE
| C_STRUCT_BOUNDS
deriving DecidableEq

/-- Embeds `pub enum Necessities` (lib.rs lines 806-841). -/
inductive Necessities
| C_STABLE
| C_PERMISSIVE
deriving DecidableEq

/-- Embeds `pub enum Documentation` (lib.rs lines 842-1018). -/
inductive Documentation
| C_CRATE_DOC
| C_EXAMPLE
| C_QUESTION_MARK
| C_FAILURE
| C_LINK
| C_METADATA
| C_RELNOTES
| C_HIDDEN
deriving DecidableEq

/-- Embeds `pub enum Macro` (lib.rs lines 1020-1163). -/
inductive Macro
| C_EVOCATIVE
| C_MACRO_ATTR
| C_ANYWHERE
| C_MACRO_VIS
| C_MACRO_TY
deriving DecidableEq

/-- The variants of `Naming` in source declaration order. -/
def Naming.all : List Naming :=
[.C_CASE, .C_CONV, .C_GETTER, .C_ITER, .C_ITER_TY, .C_FEATURE, .C_WORD_ORDER]

/-- The variants of `Interoperability` in source declaration order. -/
def Interoperability.all : List Interoperability :=
[.C_COMMON_TRAITS, .C_CONV_TRAITS, .C_COLLECT, .C_SERDE, .C_SEND_SYNC,
 .C_GOOD_ERR, .C_NUM_FMT, .C_RW_VALUE]

/-- The variants of `Predictability` in source declaration order. -/
def Predictability.all : List Predictability :=
[.C_SMART_PTR, .C_CONV_SPECIFIC, .C_METHOD, .C_NO_OUT, .C_OVERLOAD,
 .C_DEREF, .C_CTOR]

/-- The variants of `Flexibility` in source declaration order. -/
def Flexibility.all : List Flexibility :=
[.C_INTERMEDIATE, .C_CALLER_CONTROL, .C_GENERIC, .C_OBJECT]

/-- The variants of `TypeSafety` in source declaration order. -/
def TypeSafety.all : List TypeSafety :=
[.C_NEWTYPE, .C_CUSTOM_TYPE, .C_BITFLAG, .C_BUILDER]

/-- The variants of `Dependability` in source declaration order. -/
def Dependability.all : List Dependability :=
[.C_VALIDATE, .C_DTOR_FAIL, .C_DTOR_BLOCK]

/-- The variants of `Debuggability` in source declaration order. -/
def Debuggability.all : List Debuggability :=
[.C_DEBUG, .C_DEBUG_NONEMPTY]

/-- The variants of `FutureProofing` in source declaration order. -/
def FutureProofing.all : List FutureProofing :=
[.C_SEALED, .C_STRUCT_PRIVATE, .C_NEWTYPE_HIDE, .C_STRUCT_BOUNDS]

/-- The variants of `Necessities` in source declaration order. -/
def Necessities.all : List Necessities :=
[.C_STABLE, .C_PERMISSIVE]

/-- The variants of `Documentation` in source declaration order. -/
def Documentation.all : List Documentation :=
[.C_CRATE_DOC, .C_EXAMPLE, .C_QUESTION_MARK, .C_FAILURE, .C_LINK,
 .C_METADATA, .C_RELNOTES, .C_HIDDEN]

/-- The variants of `Macro` in source declaration order. -/
def Macro.all : List Macro :=
[.C_EVOCATIVE, .C_MACRO_ATTR, .C_ANYWHERE, .C_MACRO_VIS, .C_MACRO_TY]

/-- The guideline identifier of a `Naming` variant: the variant name with
hyphens for underscores, as quoted in the variant's doc comment links. -/
def Naming.ident : Naming → String
| .C_CASE => "C-CASE"
| .C_CONV => "C-CONV"
| .C_GETTER => "C-GETTER"
| .C_ITER => "C-ITER"
| .C_ITER_TY => "C-ITER-TY"
| .C_FEATURE => "C-FEATURE"
| .C_WORD_ORDER => "C-WORD-ORDER"

/-- The guideline identifier of an `Interoperability` variant. -/
def Interoperability.ident : Interoperability → String
| .C_COMMON_TRAITS => "C-COMMON-TRAITS"
| .C_CONV_TRAITS => "C-CONV-TRAITS"
| .C_COLLECT => "C-COLLECT"
| .C_SERDE => "C-SERDE"
| .C_SEND_SYNC => "C-SEND-SYNC"
| .C_GOOD_ERR => "C-GOOD-ERR"
| .C_NUM_FMT => "C-NUM-FMT"
| .C_RW_VALUE => "C-RW-VALUE"

/-- The guideline identifier of a `Predictability` variant. -/
def Predictability.ident : Predictability → String
| .C_SMART_PTR => "C-SMART-PTR"
| .C_CONV_SPECIFIC => "C-CONV-SPECIFIC"
| .C_METHOD => "C-METHOD"
| .C_NO_OUT => "C-NO-OUT"
| .C_OVERLOAD => "C-OVERLOAD"
| .C_DEREF => "C-DEREF"
| .C_CTOR => "C-CTOR"

/-- The guideline identifier of a `Flexibility` variant. -/
def Flexibility.ident : Flexibility → String
| .C_INTERMEDIATE => "C-INTERMEDIATE"
| .C_CALLER_CONTROL => "C-CALLER-CONTROL"
| .C_GENERIC => "C-GENERIC"
| .C_OBJECT => "C-OBJECT"

/-- The guideline identifier of a `TypeSafety` variant. -/
def TypeSafety.ident : TypeSafety → String
| .C_NEWTYPE => "C-NEWTYPE"
| .C_CUSTOM_TYPE => "C-CUSTOM-TYPE"
| .C_BITFLAG => "C-BITFLAG"
| .C_BUILDER => "C-BUILDER"

/-- The guideline identifier of a `Dependability` variant. -/
def Dependability.ident : Dependability → String
| .C_VALIDATE => "C-VALIDATE"
| .C_DTOR_FAIL => "C-DTOR-FAIL"
| .C_DTOR_BLOCK => "C-DTOR-BLOCK"

/-- The guideline identifier of a `Debuggability` variant. -/
def Debuggability.ident : Debuggability → String
| .C_DEBUG => "C-DEBUG"
| .C_DEBUG_NONEMPTY => "C-DEBUG-NONEMPTY"

/-- The guideline identifier of a `FutureProofing` variant. -/
def FutureProofing.ident : FutureProofing → String
| .C_SEALED => "C-SEALED"
| .C_STRUCT_PRIVATE => "C-STRUCT-PRIVATE"
| .C_NEWTYPE_HIDE => "C-NEWTYPE-HIDE"
| .C_STRUCT_BOUNDS => "C-STRUCT-BOUNDS"

/-- The guideline identifier of a `Necessities` variant. -/
def Necessities.ident : Necessities → String
| .C_STABLE => "C-STABLE"
| .C_PERMISSIVE => "C-PERMISSIVE"

/-- The guideline identifier of a `Documentation` variant. -/
def Documentation.ident : Documentation → String
| .C_CRATE_DOC => "C-CRATE-DOC"
| .C_EXAMPLE => "C-EXAMPLE"
| .C_QUESTION_MARK => "C-QUESTION-MARK"
| .C_FAILURE => "C-FAILURE"
| .C_LINK => "C-LINK"
| .C_METADATA => "C-METADATA"
| .C_RELNOTES => "C-RELNOTES"
| .C_HIDDEN => "C-HIDDEN"

/-- The guideline identifier of a `Macro` variant. -/
def Macro.ident : Macro → String
| .C_EVOCATIVE => "C-EVOCATIVE"
| .C_MACRO_ATTR => "C-MACRO-ATTR"
| .C_ANYWHERE => "C-ANYWHERE"
| .C_MACRO_VIS => "C-MACRO-VIS"
| .C_MACRO_TY => "C-MACRO-TY"

/-- Modelled from the spec: the source has one distinct enum per category and
no shared entry type; the spec's data model (§3, §9) views the registry
through "one uniform entry record type".  `Entry` is the sum of the eleven
source enums: a guideline entry is exactly one variant of one category enum,
and carries nothing beyond that variant. -/
inductive Entry
| naming : Naming → Entry
| interoperability : Interoperability → Entry
| predictability : Predictability → Entry
| flexibility : Flexibility → Entry
| typeSafety : TypeSafety → Entry
| dependability : Dependability → Entry
| debuggability : Debuggability → Entry
| futureProofing : FutureProofing → Entry
| necessities : Necessities → Entry
| documentation : Documentation → Entry
| macroEntry : Macro → Entry
deriving DecidableEq

/-- The identifier of an entry: the identifier of the underlying variant. -/
def Entry.ident : Entry → String
| .naming g => g.ident
| .interoperability g => g.ident
| .predictability g => g.ident
| .flexibility g => g.ident
| .typeSafety g => g.ident
| .dependability g => g.ident
| .debuggability g => g.ident
| .futureProofing g => g.ident
| .necessities g => g.ident
| .documentation g => g.ident
| .macroEntry g => g.ident

/-- Modelled from the spec: the category name an entry belongs to, using the
spec's topical group names (§1, §3). -/
def Entry.category : Entry → String
| .naming _ => "naming"
| .interoperability _ => "interoperability"
| .predictability _ => "predictability"
| .flexibility _ => "flexibility"
| .typeSafety _ => "type safety"
| .dependability _ => "dependability"
| .debuggability _ => "debuggability"
| .futureProofing _ => "future-proofing"
| .necessities _ => "necessities"
| .documentation _ => "documentation"
| .macroEntry _ => "macros"

/-- One tag per category enum of the source, in source declaration order
(lib.rs lines 30, 120, 247, 355, 468, 614, 668, 684, 806, 842, 1020). -/
inductive CategoryId
| naming
| interoperability
| predictability
| flexibility
| typeSafety
| dependability
| debuggability
| futureProofing
| necessities
| documentation
| macros
deriving DecidableEq

/-- The eleven categories in source declaration order. -/
def CategoryId.all : List CategoryId :=
[.naming, .interoperability, .predictability, .flexibility, .typeSafety,
 .dependability, .debuggability, .futureProofing, .necessities,
 .documentation, .macros]

/-- Modelled from the spec: the category names of the topical groups (§1). -/
def CategoryId.name : CategoryId → String
| .naming => "naming"
| .interoperability => "interoperability"
| .predictability => "predictability"
| .flexibility => "flexibility"
| .typeSafety => "type safety"
| .dependability => "dependability"
| .debuggability => "debuggability"
| .futureProofing => "future-proofing"
| .necessities => "necessities"
| .documentation => "documentation"
| .macros => "macros"

/-- The entries of a category, in source declaration order, injected into the
uniform entry type. -/
def CategoryId.entries : CategoryId → List Entry
| .naming => Naming.all.map Entry.naming
| .interoperability => Interoperability.all.map Entry.interoperability
| .predictability => Predictability.all.map Entry.predictability
| .flexibility => Flexibility.all.map Entry.flexibility
| .typeSafety => TypeSafety.all.map Entry.typeSafety
| .dependability => Dependability.all.map Entry.dependability
| .debuggability => Debuggability.all.map Entry.debuggability
| .futureProofing => FutureProofing.all.map Entry.futureProofing
| .necessities => Necessities.all.map Entry.necessities
| .documentation => Documentation.all.map Entry.documentation
| .macros => Macro.all.map Entry.macroEntry

/-- Whether the source derives the `Debug` trait for a category enum:
`#[derive(Debug)]` appears only at lib.rs lines 29 (on `Naming`) and 119
(on `Interoperability`); no other enum carries a derive attribute. -/
def CategoryId.derivesDebug : CategoryId → Bool
| .naming => true
| .interoperability => true
| _ => false

/-- Modelled from the spec: the Guideline Registry (§2, §3), "a fixed mapping
from category name to an ordered list of guideline entries", built from the
source enums in declaration order. -/
def registry : List (String × List Entry) :=
CategoryId.all.map fun c => (c.name, c.entries)

/-- Modelled from the spec: "Enumerate all categories: produce a finite
sequence of category names in a fixed, stable order (declaration order)"
(§4.1). -/
def categoryNames : List String :=
registry.map Prod.fst

/-- All entries of the registry, categories in declaration order. -/
def allEntries : List Entry :=
(registry.map Prod.snd).flatten

/-- Modelled from the spec: "Lookup by identifier: given an identifier
string, return the matching entry or signal not found" (§4.1); a not-found
lookup is a normal `none` outcome (§7). -/
def lookupByIdentifier (id : String) : Option Entry :=
allEntries.find? fun e => e.ident == id

/-- Modelled from the spec: "Enumerate by category: given a category name,
produce a … finite sequence of entries in the fixed declaration order;
unknown category signals not found rather than an empty sequence" (§4.1). -/
def enumerateByCategory (c : String) : Option (List Entry) :=
(registry.find? fun p => p.1 == c).map Prod.snd

/-- The doc comment attached to `Naming::C_CASE` (lib.rs lines 31-35), one
string per source line; braces, quotes, apostrophes and backticks are
hex-escaped. -/
def Naming.C_CASE_doc : List String :=
["In general, Rust tends to use UpperCamelCase for \"type-level\" constructs (types and traits) and snake_case for \"value-level\" constructs.",
 "",
 "In UpperCamelCase, acronyms and contractions of compound words count as one word: use Uuid rather than UUID, Usize rather than USize or Stdin rather than StdIn. In snake_case, acronyms and contractions are lower-cased: is_xid_start.",
 "",
 "[ Casing conforms to RFC 430 ](https://rust-lang.github.io/api-guidelines/naming.html)"]

/-- The doc comment attached to `TypeSafety::C_BUILDER` (lib.rs lines
547-611), one string per source line, same escaping as `Naming.C_CASE_doc`. -/
def TypeSafety.C_BUILDER_doc : List String :=
["Some data structures are complicated to construct, due to their construction needing:",
 "+ a large number of inputs",
 "+ compound data (e.g. slices)",
 "+ optional configuration data",
 "+ choice between several flavors",
 "",
 "which can easily lead to a large number of distinct constructors with many arguments each.",
 "",
 "If T is such a data structure, consider introducing a T builder:",
 "+ Introduce a separate data type TBuilder for incrementally configuring a T value. When possible, choose a better name: e.g. [ Command ](https://doc.rust-lang.org/std/process/struct.Command.html) is the builder for a [child process](https://doc.rust-lang.org/std/process/struct.Child.html), [Url](https://docs.rs/url/1.4.0/url/struct.Url.html) can be created from a [ ParseOptions ](https://docs.rs/url/1.4.0/url/struct.ParseOptions.html).",
 "+ The builder constructor should take as parameters only the data required to make a T.",
 "+ The builder should offer a suite of convenient methods for configuration, including setting up compound inputs (like slices) incrementally. These methods should return self to allow chaining.",
 "+ The builder should provide one or more \"terminal\" methods for actually building a T.",
 "",
 "The builder pattern is especially appropriate when building a T involves side effects, such as spawning a task or launching a process.",
 "",
 "In Rust, there are two variants of the builder pattern, differing in the treatment of ownership, as described below.",
 "",
 "__Non-consuming builders (preferred)__",
 "",
 "In some cases, constructing the final T does not require the builder itself to be consumed. The following variant on std::process::Command is one example",
 "",
 "Note that the spawn method, which actually uses the builder configuration to spawn a process, takes the builder by shared reference. This is possible because spawning the process does not require ownership of the configuration data.",
 "",
 "Because the terminal spawn method only needs a reference, the configuration methods take and return a mutable borrow of self.",
 "",
 "__The benefit__",
 "",
 "By using borrows throughout, Command can be used conveniently for both one-liner and more complex constructions:",
 "",
 "\x60\x60\x60",
 "// One-liners",
 "Command::new(\"/bin/cat\").arg(\"file.txt\").spawn();",
 "",
 "// Complex configuration",
 "let mut cmd = Command::new(\"/bin/ls\");",
 "if size_sorted \x7b",
 "    cmd.arg(\"-S\");",
 "\x7d",
 "cmd.arg(\".\");",
 "cmd.spawn();",
 "\x60\x60\x60",
 "Consuming builders",
 "",
 "Sometimes builders must transfer ownership when constructing the final type T, meaning that the terminal methods must take self rather than &self.",
 "",
 "When the terminal methods of the builder require ownership, there is a basic tradeoff:",
 "+ If the other builder methods take/return a mutable borrow, the complex configuration case will work well, but one-liner configuration becomes impossible.",
 "+ If the other builder methods take/return an owned self, one-liners continue to work well but complex configuration is less convenient.",
 "",
 "Under the rubric of making easy things easy and hard things possible, all builder methods for a consuming builder should take and return an owned self. Then client code works as follows:",
 "\x60\x60\x60",
 "// One-liners",
 "TaskBuilder::new(\"my_task\").spawn(|| \x7b /* ... */ \x7d);",
 "// Complex configuration",
 "let mut task = TaskBuilder::new();",
 "task = task.named(\"my_task_2\"); // must re-assign to retain ownership",
 "if reroute \x7b",
 "    task = task.stdout(mywriter);",
 "\x7d",
 "task.spawn(|| \x7b /* ... */ \x7d);",
 "\x60\x60\x60",
 "One-liners work as before, because ownership is threaded through each of the builder methods until being consumed by spawn. Complex configuration, however, is more verbose: it requires re-assigning the builder at each step.",
 "",
 "[Builders enable construction of complex values (C-BUILDER)](https://rust-lang.github.io/api-guidelines/type-safety.html#builders-enable-construction-of-complex-values-c-builder)"]

/-- Whether the first character list is an initial segment of the second. -/
def charsStartWith : List Char → List Char → Bool
| [], _ => true
| _ :: _, [] => false
| a :: as, b :: bs => a == b && charsStartWith as bs

/-- Whether the first character list occurs contiguously in the second. -/
def charsContain (needle : List Char) : List Char → Bool
| [] => needle.isEmpty
| b :: bs => charsStartWith needle (b :: bs) || charsContain needle bs

/-- Whether some line of a doc comment contains the given phrase as a
substring. -/
def mentionsPhrase (lines : List String) (phrase : String) : Bool :=
lines.any fun l => charsContain phrase.data l.data

/-- Whether a string is in uppercase-with-hyphen style: nonempty, every
character an uppercase letter or a hyphen. -/
def isUpperHyphenStyle (s : String) : Bool :=
!s.isEmpty && s.data.all fun c => c.isUpper || c == '-'

/-- Helper: looking up the identifier of any value of the entry type finds
exactly that value, by exhausting the 54 variants. -/
theorem lookupByIdentifier_ident (e : Entry) : lookupByIdentifier e.ident = some e := by
cases e <;> rename_i g <;> cases g <;> decide

/-- C1: for every guideline entry in the registry, looking up the entry's
identifier returns exactly that entry (identifier round-trip). -/
theorem lookup_roundTrip (e : Entry) (_h : e ∈ allEntries) :
    lookupByIdentifier e.ident = some e :=
lookupByIdentifier_ident e

/-- Witness for C1 at the first entry of the registry, `Naming::C_CASE`. -/
theorem lookup_roundTrip_witness :
    lookupByIdentifier (Entry.naming Naming.C_CASE).ident = some (Entry.naming Naming.C_CASE) :=
lookup_roundTrip (Entry.naming Naming.C_CASE) (by decide)

/-- C2: looking up an identifier not in the registry — in particular the
literal string "C-DOES-NOT-EXIST" — returns `none` as a normal outcome, and
a successful lookup only ever matches the identifier exactly (no partial
match); the `Option` result is the only failure channel. -/
theorem lookup_miss_spec :
    lookupByIdentifier "C-DOES-NOT-EXIST" = none
  ∧ (∀ id, id ∉ allEntries.map Entry.ident → lookupByIdentifier id = none)
  ∧ (∀ id e, lookupByIdentifier id = some e → e.ident = id) := by
refine ⟨by decide, ?_, ?_⟩
· intro id h
  unfold lookupByIdentifier
  rw [List.find?_eq_none]
  intro e he
  simp only [beq_iff_eq]
  exact fun contra => h (List.mem_map.mpr ⟨e, he, contra⟩)
· intro id e h
  unfold lookupByIdentifier at h
  have hb := List.find?_some h
  exact beq_iff_eq.mp hb

/-- Witness for C2: a second absent identifier also yields `none`. -/
theorem lookup_miss_spec_witness :
    lookupByIdentifier "C-NOT-IN-THE-REGISTRY" = none :=
lookup_miss_spec.2.1 "C-NOT-IN-THE-REGISTRY" (by decide)

/-- C3: the identifiers of all 54 entries are pairwise distinct across the
whole registry, and within every single category the identifiers of its
entries are pairwise distinct. -/
theorem identifier_uniqueness :
    (allEntries.map Entry.ident).Nodup
  ∧ ∀ p ∈ registry, (p.2.map Entry.ident).Nodup := by
exact ⟨by decide, by decide⟩

/-- Witness for C3 at the "naming" category of the registry. -/
theorem identifier_uniqueness_witness :
    ((("naming", Naming.all.map Entry.naming) : String × List Entry).2.map Entry.ident).Nodup :=
identifier_uniqueness.2 ("naming", Naming.all.map Entry.naming) (by decide)

/-- C4: enumerating by category succeeds exactly on the names of the
registry's categories; an unknown name yields `none` — which is distinct
from `some []`, the value an existing empty category would produce — and
each of the eleven category names yields that category's entries in source
declaration order. -/
theorem enumerateByCategory_spec :
    (∀ c, (enumerateByCategory c).isSome = true ↔ c ∈ categoryNames)
  ∧ (∀ c, c ∉ categoryNames → enumerateByCategory c = none ∧ enumerateByCategory c ≠ some [])
  ∧ enumerateByCategory "naming" = some (Naming.all.map Entry.naming)
  ∧ enumerateByCategory "interoperability" = some (Interoperability.all.map Entry.interoperability)
  ∧ enumerateByCategory "predictability" = some (Predictability.all.map Entry.predictability)
  ∧ enumerateByCategory "flexibility" = some (Flexibility.all.map Entry.flexibility)
  ∧ enumerateByCategory "type safety" = some (TypeSafety.all.map Entry.typeSafety)
  ∧ enumerateByCategory "dependability" = some (Dependability.all.map Entry.dependability)
  ∧ enumerateByCategory "debuggability" = some (Debuggability.all.map Entry.debuggability)
  ∧ enumerateByCategory "future-proofing" = some (FutureProofing.all.map Entry.futureProofing)
  ∧ enumerateByCategory "necessities" = some (Necessities.all.map Entry.necessities)
  ∧ enumerateByCategory "documentation" = some (Documentation.all.map Entry.documentation)
  ∧ enumerateByCategory "macros" = some (Macro.all.map Entry.macroEntry) := by
have key : ∀ c, (enumerateByCategory c).isSome = true ↔ c ∈ categoryNames := by
  intro c
  unfold enumerateByCategory categoryNames
  cases hf : registry.find? fun p => p.1 == c with
  | none =>
    rw [List.find?_eq_none] at hf
    simp only [beq_iff_eq] at hf
    constructor
    · intro hS
      exact absurd hS (by decide)
    · intro hc
      obtain ⟨p, hp, hpc⟩ := List.mem_map.mp hc
      exact absurd hpc (hf p hp)
  | some p =>
    have hp : p ∈ registry := List.mem_of_find?_eq_some hf
    have hpc := List.find?_some hf
    simp only [beq_iff_eq] at hpc
    constructor
    · intro _
      exact List.mem_map.mpr ⟨p, hp, hpc⟩
    · intro _
      rfl
refine ⟨key, ?_, by decide, by decide, by decide, by decide, by decide, by decide,
  by decide, by decide, by decide, by decide, by decide⟩
intro c hc
have hnone : enumerateByCategory c = none := by
  cases h : enumerateByCategory c with
  | none => rfl
  | some l => exact absurd ((key c).mp (by rw [h]; rfl)) hc
exact ⟨hnone, by rw [hnone]; exact fun h => Option.noConfusion h⟩

/-- Witness for C4: an unknown category name yields `none`. -/
theorem enumerateByCategory_spec_witness :
    enumerateByCategory "no-such-category" = none :=
(enumerateByCategory_spec.2.1 "no-such-category" (by decide)).1

/-- C5: enumerating all categories yields exactly the eleven topical group
names in source declaration order. -/
theorem categoryNames_declaration_order :
    categoryNames = ["naming", "interoperability", "predictability",
      "flexibility", "type safety", "dependability", "debuggability",
      "future-proofing", "necessities", "documentation", "macros"]
  ∧ categoryNames.length = 11 := by
exact ⟨by decide, by decide⟩

/-- C6 counterexample: the claim that some category of the registry has an
empty entry list is false — no pair of the registry carries `[]`; in the
source every one of the eleven enums declares at least one variant. -/
theorem no_empty_category : ¬ ∃ p ∈ registry, p.2 = [] := by decide

/-- C6 amended: every category of the registry is nonempty, and every
category (hence also a hypothetically empty one, via `some`) is valid and
queryable by its name. -/
theorem all_categories_nonempty :
    ∀ p ∈ registry, p.2 ≠ [] ∧ enumerateByCategory p.1 = some p.2 := by decide

/-- Witness for the amended C6 at the "predictability" category, the one the
spec names as empty: it in fact holds seven entries. -/
theorem all_categories_nonempty_witness :
    (("predictability", Predictability.all.map Entry.predictability) : String × List Entry).2 ≠ []
  ∧ enumerateByCategory "predictability" = some (Predictability.all.map Entry.predictability) :=
all_categories_nonempty ("predictability", Predictability.all.map Entry.predictability) (by decide)

/-- C7: looking up "C-CASE" returns the `Naming::C_CASE` entry of the
"naming" category, whose doc text mentions casing conventions (the words
"Casing", "UpperCamelCase", "snake_case" occur in it); looking up
"C-BUILDER" returns the `TypeSafety::C_BUILDER` entry of the "type safety"
category, whose doc text discusses incrementally-configured construction
("incrementally configuring" a value through a builder). -/
theorem lookup_C_CASE_and_C_BUILDER :
    lookupByIdentifier "C-CASE" = some (Entry.naming Naming.C_CASE)
  ∧ (Entry.naming Naming.C_CASE).category = "naming"
  ∧ mentionsPhrase Naming.C_CASE_doc "Casing" = true
  ∧ mentionsPhrase Naming.C_CASE_doc "UpperCamelCase" = true
  ∧ mentionsPhrase Naming.C_CASE_doc "snake_case" = true
  ∧ lookupByIdentifier "C-BUILDER" = some (Entry.typeSafety TypeSafety.C_BUILDER)
  ∧ (Entry.typeSafety TypeSafety.C_BUILDER).category = "type safety"
  ∧ mentionsPhrase TypeSafety.C_BUILDER_doc "incrementally configuring" = true
  ∧ mentionsPhrase TypeSafety.C_BUILDER_doc "builder" = true := by
exact ⟨by decide, rfl, by decide, by decide, by decide, by decide, rfl,
  by decide, by decide⟩

/-- C8: every entry's identifier is in uppercase-with-hyphen style: nonempty
and made only of uppercase letters and hyphens. -/
theorem identifiers_uppercase_hyphen :
    ∀ e : Entry, isUpperHyphenStyle e.ident = true := by
intro e
cases e <;> rename_i g <;> cases g <;> decide

/-- C9: every variant of every category enum is a unit variant: the entry
type has exactly the 54 listed values, one per declared variant (a variant
carrying data would contribute more than one value), and an entry is fully
determined by its symbolic identifier — descriptions, titles and URLs exist
only as doc comments in the source and are no part of any runtime value. -/
theorem entries_unit_variants :
    (∀ e : Entry, e ∈ allEntries)
  ∧ allEntries.length = 54
  ∧ allEntries.Nodup
  ∧ (∀ e1 e2 : Entry, e1.ident = e2.ident → e1 = e2) := by
have complete : ∀ e : Entry, e ∈ allEntries := by
  intro e
  cases e <;> rename_i g <;> cases g <;> decide
refine ⟨complete, by decide, by decide, ?_⟩
intro e1 e2 h
exact List.inj_on_of_nodup_map (by decide : (allEntries.map Entry.ident).Nodup)
  (complete e1) (complete e2) h

/-- Witness for C9: the identifier "C-CASE" determines the entry. -/
theorem entries_unit_variants_witness :
    Entry.naming Naming.C_CASE = Entry.naming Naming.C_CASE :=
entries_unit_variants.2.2.2 (Entry.naming Naming.C_CASE) (Entry.naming Naming.C_CASE) rfl

/-- C10: exactly two of the eleven category enums carry `#[derive(Debug)]`
in the source — `Naming` and `Interoperability` — and each of the other nine
does not. -/
theorem debug_derive_exactly_two :
    (CategoryId.all.filter CategoryId.derivesDebug).length = 2
  ∧ CategoryId.derivesDebug .naming = true
  ∧ CategoryId.derivesDebug .interoperability = true
  ∧ CategoryId.derivesDebug .predictability = false
  ∧ CategoryId.derivesDebug .flexibility = false
  ∧ CategoryId.derivesDebug .typeSafety = false
  ∧ CategoryId.derivesDebug .dependability = false
  ∧ CategoryId.derivesDebug .debuggability = false
  ∧ CategoryId.derivesDebug .futureProofing = false
  ∧ CategoryId.derivesDebug .necessities = false
  ∧ CategoryId.derivesDebug .documentation = false
  ∧ CategoryId.derivesDebug .macros = false := by decide

end ApiGuidelines
